import Mathlib

/-!
Shallow embedding of the reconciliation / state-management core of the
`reminder` GitHub-notification dashboard (src/app.rs, with the domain data
model of src/domain.rs and the error type of src/github.rs).

Modelling conventions:
- `DateTime<Utc>` timestamps become `Int`; `Instant` and `Duration` in the
  scheduler become `Nat` ticks.  Every place the Rust code calls
  `Utc::now()` / `Instant::now()` the embedding takes the current time as an
  explicit parameter (`now`).
- A background job's single-slot completion channel becomes a `JobSlot`:
  `running` (the worker has not sent yet, `TryRecvError::Empty`), `done r`
  (the worker deposited the result `r`), `disconnected` (the worker
  terminated without sending, `TryRecvError::Disconnected`).  Spawning a
  job yields a `running` slot; the worker's eventual send is modelled by
  the environment step `deliver_fetch`.
- `HashSet<String>` (`inflight_done`) becomes a duplicate-free `List String`
  with set-insert (no-op when present) and remove-all-occurrences, matching
  `HashSet::insert` / `HashSet::remove` semantics.
- `HashSet<SectionKind>` (`highlights`) has exactly three possible elements,
  so it is modelled extensionally as a record of three membership Booleans.
- `NotificationItem` follows the revision used by src/app.rs and
  src/github.rs, which carry a `last_read_at: Option<DateTime<Utc>>`
  field (src/domain.rs in the checkout is one revision behind and lacks it).
-/

-- ---------------------------------------------------------------------------
-- Generic list helpers (Rust `iter_mut().find(...)` mutation of the first
-- matching element, and `HashSet<String>` set operations on lists)
-- ---------------------------------------------------------------------------

/-- Apply `f` to the first element satisfying `p`, leaving the rest alone.
This is what `iter_mut().find(|item| ...)` followed by a mutation does. -/
def editFirst (p : α → Bool) (f : α → α) : List α → List α
  | [] => []
  | x :: xs => if p x then f x :: xs else x :: editFirst p f xs

/-- `HashSet::insert`: add `x` unless it is already a member. -/
def setInsert (xs : List String) (x : String) : List String :=
  if xs.contains x then xs else xs ++ [x]

/-- `HashSet::remove`: drop every occurrence of `x`. -/
def setRemove (xs : List String) (x : String) : List String :=
  xs.filter (fun y => y != x)

-- ---------------------------------------------------------------------------
-- Domain data model (src/domain.rs, at the revision used by src/app.rs)
-- ---------------------------------------------------------------------------

structure GitHubAccount where
  login : String
  token : String
deriving DecidableEq

structure NotificationItem where
  thread_id : String
  repo : String
  title : String
  url : Option String
  reason : String
  updated_at : Int
  last_read_at : Option Int
  unread : Bool
deriving DecidableEq

inductive MentionKind where
  | issue
  | pullRequest
deriving DecidableEq

structure ReviewRequest where
  id : Nat
  repo : String
  title : String
  url : String
  updated_at : Int
  requested_by : Option String
deriving DecidableEq

structure MentionThread where
  id : Nat
  repo : String
  title : String
  url : String
  updated_at : Int
  kind : MentionKind
deriving DecidableEq

structure ReviewSummary where
  id : Nat
  repo : String
  title : String
  url : String
  updated_at : Int
  state : String
deriving DecidableEq

structure InboxSnapshot where
  notifications : List NotificationItem
  review_requests : List ReviewRequest
  mentions : List MentionThread
  recent_reviews : List ReviewSummary
  fetched_at : Int
deriving DecidableEq

-- ---------------------------------------------------------------------------
-- Fetch errors (src/github.rs); `to_string` mirrors the thiserror Display
-- ---------------------------------------------------------------------------

inductive FetchError where
  /-- `Http(reqwest::Error)`; the payload is the inner error's display text. -/
  | http (inner : String)
  | missingToken
  | backgroundWorkerGone
deriving DecidableEq

def FetchError.to_string : FetchError → String
  | .http inner => "GitHub API request failed: " ++ inner
  | .missingToken => "Account token is missing"
  | .backgroundWorkerGone => "Background worker disconnected before returning a result"

instance {ε α : Type} [DecidableEq ε] [DecidableEq α] : DecidableEq (Except ε α) := fun x y =>
  match x, y with
  | .ok a, .ok b =>
    if h : a = b then isTrue (by rw [h]) else isFalse (by intro he; cases he; exact h rfl)
  | .error a, .error b =>
    if h : a = b then isTrue (by rw [h]) else isFalse (by intro he; cases he; exact h rfl)
  | .ok _, .error _ => isFalse (by intro he; cases he)
  | .error _, .ok _ => isFalse (by intro he; cases he)

def FetchOutcome := Except FetchError InboxSnapshot

instance : DecidableEq FetchOutcome := by
  unfold FetchOutcome
  infer_instance

-- ---------------------------------------------------------------------------
-- Background-job completion channels
-- ---------------------------------------------------------------------------

/-- State of a job's single-slot completion channel as observed by the
spawner: the worker is still running (nothing received yet), it deposited a
result, or it terminated without ever sending one. -/
inductive JobSlot (α : Type) where
  | running
  | done (result : α)
  | disconnected
deriving DecidableEq

/-- `PendingJob::try_take`: non-blocking receive on the fetch channel.
`Disconnected` is synthesized into `FetchError::BackgroundWorkerGone`. -/
def fetch_try_take (slot : JobSlot FetchOutcome) : Option FetchOutcome :=
  match slot with
  | .running => none
  | .done result => some result
  | .disconnected => some (.error .backgroundWorkerGone)

/-- `Result<String, (Option<String>, String)>`: `Ok(thread_id)` on success,
`Err((maybe thread_id, message))` on failure. -/
def NotificationActionResult := Except (Option String × String) String

instance : DecidableEq NotificationActionResult := by
  unfold NotificationActionResult
  infer_instance

/-- `NotificationActionJob::try_take`: non-blocking receive on an action
channel; a disconnected worker yields an error with no thread id. -/
def action_try_take (slot : JobSlot NotificationActionResult) : Option NotificationActionResult :=
  match slot with
  | .running => none
  | .done result => some result
  | .disconnected => some (.error (none, "Notification action worker disconnected"))

inductive ActionKind where
  | markRead
  | markDone
deriving DecidableEq

/-- `NotificationActionJob` together with the arguments captured by its
worker closure (`mark_read(profile, thread_id)` / `mark_done(...)`): the
channel slot plus the action's kind and target thread id. -/
structure NotificationActionJob where
  kind : ActionKind
  thread_id : String
  slot : JobSlot NotificationActionResult
deriving DecidableEq

-- ---------------------------------------------------------------------------
-- Notification visual state and per-section counts (src/app.rs)
-- ---------------------------------------------------------------------------

structure NotificationVisualState where
  seen : Bool
  needs_revisit : Bool
deriving DecidableEq

/-- `notification_state`: revisit when activity landed after the last read
timestamp; seen only when read and not needing a revisit. -/
def notification_state (item : NotificationItem) : NotificationVisualState :=
  let needs_revisit :=
    (item.last_read_at.map (fun last_read => decide (last_read < item.updated_at))).getD false
  { seen := !item.unread && !needs_revisit, needs_revisit := needs_revisit }

/-- `summarize_counts`: (number of unread items, number of needs-revisit
items) over a section's slice. -/
def summarize_counts (items : List NotificationItem) : Nat × Nat :=
  (items.countP (fun item => item.unread),
   items.countP (fun item => (notification_state item).needs_revisit))

structure SectionCounts where
  unseen : Nat
  updated : Nat
deriving DecidableEq

def SectionCounts.new (unseen updated : Nat) : SectionCounts :=
  { unseen := unseen, updated := updated }

/-- `SectionCounts::bumped_since`: either count strictly increased. -/
def SectionCounts.bumped_since (self previous : SectionCounts) : Bool :=
  decide (previous.unseen < self.unseen) || decide (previous.updated < self.updated)

structure SectionStats where
  review_requests : SectionCounts
  mentions : SectionCounts
  notifications : SectionCounts
deriving DecidableEq

def REVIEW_REQUEST_REASON : String := "review_requested"

def MENTION_REASONS : List String := ["mention", "team_mention"]

/-- `section_stats`: bucket the snapshot's notifications by reason code and
summarize each bucket. -/
def section_stats (inbox : InboxSnapshot) : SectionStats :=
  let review_requests :=
    inbox.notifications.filter (fun item => item.reason == REVIEW_REQUEST_REASON)
  let mentions :=
    inbox.notifications.filter (fun item => MENTION_REASONS.contains item.reason)
  let other :=
    inbox.notifications.filter (fun item =>
      item.reason != REVIEW_REQUEST_REASON && !(MENTION_REASONS.contains item.reason))
  let rr := summarize_counts review_requests
  let m := summarize_counts mentions
  let o := summarize_counts other
  { review_requests := SectionCounts.new rr.1 rr.2
    mentions := SectionCounts.new m.1 m.2
    notifications := SectionCounts.new o.1 o.2 }

inductive SectionKind where
  | reviewRequests
  | mentions
  | notifications
deriving DecidableEq

/-- Select the bucket's counts out of a `SectionStats`. -/
def SectionStats.by_kind (stats : SectionStats) : SectionKind → SectionCounts
  | .reviewRequests => stats.review_requests
  | .mentions => stats.mentions
  | .notifications => stats.notifications

/-- `HashSet<SectionKind>` modelled extensionally: one membership flag per
possible element. -/
structure SectionKindSet where
  reviewRequests : Bool
  mentions : Bool
  notifications : Bool
deriving DecidableEq

def SectionKindSet.empty : SectionKindSet :=
  { reviewRequests := false, mentions := false, notifications := false }

def SectionKindSet.contains (s : SectionKindSet) : SectionKind → Bool
  | .reviewRequests => s.reviewRequests
  | .mentions => s.mentions
  | .notifications => s.notifications

def SectionKindSet.insert (s : SectionKindSet) : SectionKind → SectionKindSet
  | .reviewRequests => { s with reviewRequests := true }
  | .mentions => { s with mentions := true }
  | .notifications => { s with notifications := true }

def SectionKindSet.remove (s : SectionKindSet) : SectionKind → SectionKindSet
  | .reviewRequests => { s with reviewRequests := false }
  | .mentions => { s with mentions := false }
  | .notifications => { s with notifications := false }

-- ---------------------------------------------------------------------------
-- Account state machine (src/app.rs, struct AccountState)
-- ---------------------------------------------------------------------------

structure AccountState where
  profile : GitHubAccount
  inbox : Option InboxSnapshot
  last_error : Option String
  pending_job : Option (JobSlot FetchOutcome)
  pending_actions : List NotificationActionJob
  expanded : Bool
  search_query : String
  inflight_done : List String
  highlights : SectionKindSet
deriving DecidableEq

def AccountState.new (profile : GitHubAccount) : AccountState :=
  { profile := profile
    inbox := none
    last_error := none
    pending_job := none
    pending_actions := []
    expanded := true
    search_query := ""
    inflight_done := []
    highlights := SectionKindSet.empty }

/-- `start_refresh`: clear the error, discard any previous fetch job handle
and spawn a fresh fetch job (a freshly spawned job's slot is `running`). -/
def AccountState.start_refresh (s : AccountState) : AccountState :=
  { s with last_error := none, pending_job := some JobSlot.running }

/-- Environment step: the background fetch worker deposits `outcome` into
the pending job's completion channel (a `send` on the mpsc channel). -/
def AccountState.deliver_fetch (s : AccountState) (outcome : FetchOutcome) : AccountState :=
  { s with pending_job := s.pending_job.map (fun _ => JobSlot.done outcome) }

/-- `poll_job`: if the pending fetch completed, clear the handle; on success
compare new section stats against the previous snapshot's (when one exists)
and highlight each bumped section, then install the snapshot and clear the
error; on failure keep the stale inbox and record the error message. -/
def AccountState.poll_job (s : AccountState) : AccountState :=
  match s.pending_job with
  | none => s
  | some job =>
    match fetch_try_take job with
    | none => s
    | some result =>
      let s1 := { s with pending_job := none }
      match result with
      | .ok inbox =>
        let highlights :=
          match s1.inbox with
          | some previous =>
            let old := section_stats previous
            let next := section_stats inbox
            let h := s1.highlights
            let h := if next.review_requests.bumped_since old.review_requests then
              h.insert .reviewRequests else h
            let h := if next.mentions.bumped_since old.mentions then
              h.insert .mentions else h
            let h := if next.notifications.bumped_since old.notifications then
              h.insert .notifications else h
            h
          | none => s1.highlights
        { s1 with inbox := some inbox, last_error := none, highlights := highlights }
      | .error err =>
        { s1 with last_error := some err.to_string }

/-- `handle_action_success`: locate the item by thread id (if the inbox
still has it), mark it read at the current timestamp, and drop the id from
the in-flight set. -/
def AccountState.handle_action_success (s : AccountState) (now : Int)
    (thread_id : String) : AccountState :=
  let s1 :=
    match s.inbox with
    | none => s
    | some inbox =>
      { s with inbox := some { inbox with notifications :=
          (editFirst (fun item => item.thread_id == thread_id)
            (fun item => { item with unread := false, last_read_at := some now })
            inbox.notifications) } }
  { s1 with inflight_done := setRemove s1.inflight_done thread_id }

/-- `poll_action_jobs`: retain the unfinished action jobs, then fold the
finished outcomes into the state: success applies the optimistic edit,
failure records the message and — only when the error carries a thread id —
removes that id from the in-flight set. -/
def AccountState.poll_action_jobs (s : AccountState) (now : Int) : AccountState :=
  let finished := s.pending_actions.filterMap (fun job => action_try_take job.slot)
  let s1 := { s with pending_actions :=
    s.pending_actions.filter (fun job => (action_try_take job.slot).isNone) }
  finished.foldl
    (fun acc outcome =>
      match outcome with
      | .ok thread_id => acc.handle_action_success now thread_id
      | .error (thread_id, err) =>
        let acc1 := { acc with last_error := some err }
        match thread_id with
        | some id => { acc1 with inflight_done := setRemove acc1.inflight_done id }
        | none => acc1)
    s1

/-- `mark_notification_seen`: purely local optimistic edit — mark the item
read and advance its local `last_read_at` to its `updated_at`. -/
def AccountState.mark_notification_seen (s : AccountState) (thread_id : String) : AccountState :=
  match s.inbox with
  | none => s
  | some inbox =>
    { s with inbox := some { inbox with notifications :=
        (editFirst (fun item => item.thread_id == thread_id)
          (fun item => { item with unread := false, last_read_at := some item.updated_at })
          inbox.notifications) } }

/-- `request_mark_read`: no-op when the id is already in flight; otherwise
push a fresh mark-read job and insert the id into the in-flight set. -/
def AccountState.request_mark_read (s : AccountState) (thread_id : String) : AccountState :=
  if s.inflight_done.contains thread_id then s
  else
    { s with
      pending_actions := s.pending_actions ++
        [{ kind := .markRead, thread_id := thread_id, slot := .running }]
      inflight_done := setInsert s.inflight_done thread_id }

/-- `request_mark_done`: same guard and bookkeeping, spawning a mark-done
job instead. -/
def AccountState.request_mark_done (s : AccountState) (thread_id : String) : AccountState :=
  if s.inflight_done.contains thread_id then s
  else
    { s with
      pending_actions := s.pending_actions ++
        [{ kind := .markDone, thread_id := thread_id, slot := .running }]
      inflight_done := setInsert s.inflight_done thread_id }

/-- Look the thread up in the current inbox (first match on thread id). -/
def AccountState.find_notification (s : AccountState) (thread_id : String) :
    Option NotificationItem :=
  s.inbox.bind (fun inbox =>
    inbox.notifications.find? (fun item => item.thread_id == thread_id))

-- ---------------------------------------------------------------------------
-- Auto-refresh scheduler (src/app.rs, struct BatchRefreshScheduler)
-- ---------------------------------------------------------------------------

structure BatchRefreshScheduler where
  interval : Nat
  last_run : Option Nat
deriving DecidableEq

def BatchRefreshScheduler.new (interval : Nat) : BatchRefreshScheduler :=
  { interval := interval, last_run := none }

/-- `should_trigger`: never fired yet, or the elapsed time since the last
firing reached the interval (`instant.elapsed() >= self.interval`). -/
def BatchRefreshScheduler.should_trigger (sch : BatchRefreshScheduler) (now : Nat) : Bool :=
  match sch.last_run with
  | none => true
  | some instant => decide (sch.interval ≤ now - instant)

/-- `mark_triggered`: reset the clock to now. -/
def BatchRefreshScheduler.mark_triggered (sch : BatchRefreshScheduler)
    (now : Nat) : BatchRefreshScheduler :=
  { sch with last_run := some now }

-- ---------------------------------------------------------------------------
-- Concrete states used to evaluate the theorems on explicit inputs
-- ---------------------------------------------------------------------------

def profW : GitHubAccount := { login := "octocat", token := "tok" }

def snap1W : InboxSnapshot :=
  { notifications := [], review_requests := [], mentions := [], recent_reviews := []
    fetched_at := 0 }

def itemRR : NotificationItem :=
  { thread_id := "t1", repo := "acme/widgets", title := "Please review", url := none
    reason := "review_requested", updated_at := 5, last_read_at := none, unread := true }

def snap2W : InboxSnapshot :=
  { snap1W with notifications := [itemRR], fetched_at := 10 }

def itemC2 : NotificationItem :=
  { thread_id := "t1", repo := "acme/widgets", title := "Ping", url := none
    reason := "mention", updated_at := 5, last_read_at := none, unread := true }

def snapC2 : InboxSnapshot :=
  { notifications := [itemC2], review_requests := [], mentions := [], recent_reviews := []
    fetched_at := 0 }

def jobC2 : NotificationActionJob :=
  { kind := .markRead, thread_id := "t1", slot := JobSlot.done (Except.ok "t1") }

def sC2 : AccountState :=
  { AccountState.new profW with
      inbox := some snapC2, inflight_done := ["t1"], pending_actions := [jobC2] }

def jobC3 : NotificationActionJob :=
  { kind := .markRead, thread_id := "t9", slot := JobSlot.disconnected }

def sC3 : AccountState :=
  { AccountState.new profW with inflight_done := ["t9"], pending_actions := [jobC3] }

def jobC3b : NotificationActionJob :=
  { kind := .markRead, thread_id := "t2"
    slot := JobSlot.done (Except.error (some "t2", "HTTP 502")) }

def sC3b : AccountState :=
  { AccountState.new profW with inflight_done := ["t2"], pending_actions := [jobC3b] }

def sC4 : AccountState :=
  { AccountState.new profW with
      inbox := some snap1W, pending_job := some (JobSlot.done (Except.ok snap2W)) }

def sC6 : AccountState :=
  { AccountState.new profW with
      inbox := some snap1W
      pending_job := some (JobSlot.done (Except.error FetchError.missingToken)) }

def sC8 : AccountState :=
  { AccountState.new profW with inflight_done := ["a"] }

def sC10 : AccountState :=
  { AccountState.new profW with inbox := some snapC2 }

-- ---------------------------------------------------------------------------
-- Shared helper lemmas
-- ---------------------------------------------------------------------------

theorem editFirst_eq_of_not_mem (p : α → Bool) (f : α → α) (l : List α)
    (h : ∀ x ∈ l, p x = false) : editFirst p f l = l := by
  induction l with
  | nil => rfl
  | cons a l ih =>
    have ha : p a = false := h a (List.mem_cons_self a l)
    simp [editFirst, ha]
    exact ih (fun x hx => h x (List.mem_cons_of_mem a hx))

theorem find?_editFirst (p : α → Bool) (f : α → α) (hp : ∀ x, p (f x) = p x)
    (l : List α) : (editFirst p f l).find? p = (l.find? p).map f := by
  induction l with
  | nil => rfl
  | cons a l ih =>
    by_cases h : p a
    · simp [editFirst, h, List.find?_cons_of_pos, hp]
    · simp only [Bool.not_eq_true] at h
      simp [editFirst, h, List.find?_cons_of_neg, ih]

theorem editFirst_editFirst (p : α → Bool) (f : α → α) (hp : ∀ x, p (f x) = p x)
    (hf : ∀ x, f (f x) = f x) (l : List α) :
    editFirst p f (editFirst p f l) = editFirst p f l := by
  induction l with
  | nil => rfl
  | cons a l ih =>
    by_cases h : p a
    · simp [editFirst, h, hp, hf]
    · simp only [Bool.not_eq_true] at h
      simp [editFirst, h, ih]

theorem setRemove_contains_eq_false (l : List String) (x : String) :
    (setRemove l x).contains x = false := by
  simp [setRemove]

theorem setInsert_contains_self (l : List String) (x : String) :
    (setInsert l x).contains x = true := by
  by_cases h : x ∈ l <;> simp [setInsert, h]

theorem SectionKindSet.contains_insert_self (s : SectionKindSet) (k : SectionKind) :
    (s.insert k).contains k = true := by
  cases k <;> rfl

theorem SectionKindSet.contains_insert_of_contains (s : SectionKindSet) (k k2 : SectionKind)
    (h : s.contains k = true) : (s.insert k2).contains k = true := by
  cases k <;> cases k2 <;>
    simp_all [SectionKindSet.insert, SectionKindSet.contains]

-- ---------------------------------------------------------------------------
-- Claim theorems
-- ---------------------------------------------------------------------------

/-- C5: for every notification item, `needs_revisit` is true iff
`last_read_at` is present and `updated_at` is strictly later, and `seen` is
true iff the item is not unread and does not need a revisit. -/
theorem C5_notification_visual_state (item : NotificationItem) :
    ((notification_state item).needs_revisit = true ↔
      ∃ t, item.last_read_at = some t ∧ t < item.updated_at)
    ∧ ((notification_state item).seen = true ↔
      item.unread = false ∧ (notification_state item).needs_revisit = false) := by
  constructor
  · cases h : item.last_read_at <;> simp [notification_state, h]
  · cases h : item.last_read_at <;>
      simp [notification_state, h, Bool.and_eq_true, Bool.not_eq_true']

/-- C7: `mark_notification_seen` (the spec's `mark_seen_locally`) is
idempotent — applying it twice with the same thread id yields exactly the
state produced by applying it once. -/
theorem C7_mark_seen_locally_idempotent (s : AccountState) (thread_id : String) :
    (s.mark_notification_seen thread_id).mark_notification_seen thread_id
      = s.mark_notification_seen thread_id := by
  obtain ⟨prof, inbox0, lerr, pj, pa, ex, sq, infl, hl⟩ := s
  cases inbox0 with
  | none => rfl
  | some inbox =>
    simp only [AccountState.mark_notification_seen]
    rw [editFirst_editFirst (fun item : NotificationItem => item.thread_id == thread_id)
      (fun item : NotificationItem =>
        { item with unread := false, last_read_at := some item.updated_at })
      (fun x => rfl) (fun x => rfl)]

/-- C10: `mark_notification_seen` with a thread id that matches no item of
the current inbox (including when there is no inbox) leaves the whole
account state unchanged. -/
theorem C10_mark_seen_absent_thread_noop (s : AccountState) (thread_id : String)
    (h : s.find_notification thread_id = none) :
    s.mark_notification_seen thread_id = s := by
  obtain ⟨prof, inbox0, lerr, pj, pa, ex, sq, infl, hl⟩ := s
  cases inbox0 with
  | none => rfl
  | some inbox =>
    simp only [AccountState.find_notification, Option.bind] at h
    have hall : ∀ x ∈ inbox.notifications, (x.thread_id == thread_id) = false := by
      intro x hx
      have hnot := List.find?_eq_none.mp h x hx
      simpa using hnot
    simp only [AccountState.mark_notification_seen]
    rw [editFirst_eq_of_not_mem _ _ _ hall]

/-- C10 witness: marking a thread id absent from a concrete inbox is a
no-op on the whole state. -/
theorem C10_mark_seen_absent_thread_noop_witness :
    sC10.mark_notification_seen "no-such-thread" = sC10 :=
  C10_mark_seen_absent_thread_noop sC10 "no-such-thread" (by decide)

/-- C8: requesting mark-read or mark-done while the thread id is already in
flight changes nothing; otherwise the call appends exactly one action job
and inserts the id into the in-flight set immediately. -/
theorem C8_request_actions_inflight_guard (s : AccountState) (thread_id : String) :
    (s.inflight_done.contains thread_id = true →
      s.request_mark_read thread_id = s ∧ s.request_mark_done thread_id = s)
    ∧ (s.inflight_done.contains thread_id = false →
      (s.request_mark_read thread_id).pending_actions.length = s.pending_actions.length + 1
      ∧ (s.request_mark_read thread_id).inflight_done.contains thread_id = true
      ∧ (s.request_mark_done thread_id).pending_actions.length = s.pending_actions.length + 1
      ∧ (s.request_mark_done thread_id).inflight_done.contains thread_id = true) := by
  constructor
  · intro h
    have hm : thread_id ∈ s.inflight_done := by simpa using h
    constructor <;> simp [AccountState.request_mark_read, AccountState.request_mark_done, hm]
  · intro h
    have hm : thread_id ∉ s.inflight_done := by simpa using h
    refine ⟨?_, ?_, ?_, ?_⟩ <;>
      simp [AccountState.request_mark_read, AccountState.request_mark_done, hm, setInsert]

/-- C8 witness: on a concrete state with "a" in flight, requesting "a" is a
no-op and requesting the fresh id "b" appends one job and marks "b" in
flight. -/
theorem C8_request_actions_inflight_guard_witness :
    (sC8.request_mark_read "a" = sC8 ∧ sC8.request_mark_done "a" = sC8)
    ∧ ((sC8.request_mark_read "b").pending_actions.length = sC8.pending_actions.length + 1
       ∧ (sC8.request_mark_read "b").inflight_done.contains "b" = true
       ∧ (sC8.request_mark_done "b").pending_actions.length = sC8.pending_actions.length + 1
       ∧ (sC8.request_mark_done "b").inflight_done.contains "b" = true) :=
  ⟨(C8_request_actions_inflight_guard sC8 "a").1 (by decide),
   (C8_request_actions_inflight_guard sC8 "b").2 (by decide)⟩

/-- C9: a fresh scheduler always triggers; immediately after
`mark_triggered` it does not trigger (for a positive interval); afterwards
it triggers exactly when the elapsed time reaches the interval. -/
theorem C9_scheduler_trigger_window (interval t now : Nat) (sch : BatchRefreshScheduler) :
    (BatchRefreshScheduler.new interval).should_trigger now = true
    ∧ (0 < sch.interval → (sch.mark_triggered t).should_trigger t = false)
    ∧ (t ≤ now →
        ((sch.mark_triggered t).should_trigger now = true ↔ sch.interval ≤ now - t)) := by
  refine ⟨rfl, ?_, ?_⟩
  · intro h
    simp only [BatchRefreshScheduler.mark_triggered, BatchRefreshScheduler.should_trigger,
      Nat.sub_self, decide_eq_false_iff_not]
    omega
  · intro _
    simp [BatchRefreshScheduler.mark_triggered, BatchRefreshScheduler.should_trigger]

/-- C9 witness: with interval 3, a fresh scheduler triggers at time 8;
marking at time 5 suppresses triggering at time 5; at time 8 the trigger
condition is exactly 3 ≤ 8 - 5. -/
theorem C9_scheduler_trigger_window_witness :
    (BatchRefreshScheduler.new 3).should_trigger 8 = true
    ∧ ((BatchRefreshScheduler.new 3).mark_triggered 5).should_trigger 5 = false
    ∧ (((BatchRefreshScheduler.new 3).mark_triggered 5).should_trigger 8 = true ↔ 3 ≤ 8 - 5) :=
  ⟨(C9_scheduler_trigger_window 3 5 8 (BatchRefreshScheduler.new 3)).1,
   (C9_scheduler_trigger_window 3 5 8 (BatchRefreshScheduler.new 3)).2.1 (by decide),
   (C9_scheduler_trigger_window 3 5 8 (BatchRefreshScheduler.new 3)).2.2 (by decide)⟩

/-- C6: a delivered fetch error sets `last_error` to the error's message
and leaves the inbox exactly as it was (stale data preserved, also when no
snapshot exists), and any delivered completion — error or success — clears
the pending fetch job. -/
theorem C6_fetch_failure_keeps_stale_inbox (s : AccountState) (r : FetchOutcome)
    (h : s.pending_job = some (JobSlot.done r)) :
    (s.poll_job).pending_job = none
    ∧ (∀ err, r = Except.error err →
        (s.poll_job).last_error = some err.to_string ∧ (s.poll_job).inbox = s.inbox) := by
  obtain ⟨prof, inbox0, lerr, pj, pa, ex, sq, infl, hl⟩ := s
  have hb : pj = some (JobSlot.done r) := h
  subst hb
  cases r with
  | ok inbox =>
    refine ⟨rfl, ?_⟩
    intro err he
    exact absurd he (by simp)
  | error err0 =>
    refine ⟨rfl, ?_⟩
    intro err he
    injection he with h2
    subst h2
    exact ⟨rfl, rfl⟩

/-- C6 witness: a concrete account holding a stale snapshot receives a
MissingToken fetch failure; the error text is recorded, the snapshot is
kept, and the job slot is cleared. -/
theorem C6_fetch_failure_keeps_stale_inbox_witness :
    (sC6.poll_job).pending_job = none
    ∧ (sC6.poll_job).last_error = some "Account token is missing"
    ∧ (sC6.poll_job).inbox = sC6.inbox :=
  ⟨(C6_fetch_failure_keeps_stale_inbox sC6 (Except.error FetchError.missingToken) rfl).1,
   ((C6_fetch_failure_keeps_stale_inbox sC6 (Except.error FetchError.missingToken) rfl).2
      FetchError.missingToken rfl).1,
   ((C6_fetch_failure_keeps_stale_inbox sC6 (Except.error FetchError.missingToken) rfl).2
      FetchError.missingToken rfl).2⟩

/-- C4: when a snapshot S1 is already held and a successfully fetched S2 is
applied by poll_job, every bucket whose unseen or updated count strictly
increased from S1 to S2 is in the highlight set afterwards. -/
theorem C4_bumped_bucket_highlighted (s : AccountState) (S1 S2 : InboxSnapshot)
    (k : SectionKind)
    (h1 : s.inbox = some S1)
    (h2 : s.pending_job = some (JobSlot.done (Except.ok S2)))
    (hb : ((section_stats S2).by_kind k).bumped_since ((section_stats S1).by_kind k) = true) :
    (s.poll_job).highlights.contains k = true := by
  obtain ⟨prof, inbox0, lerr, pj, pa, ex, sq, infl, hl⟩ := s
  have h1b : inbox0 = some S1 := h1
  have h2b : pj = some (JobSlot.done (Except.ok S2)) := h2
  subst h1b h2b
  simp only [SectionStats.by_kind] at hb
  cases k with
  | reviewRequests =>
    simp only [AccountState.poll_job, fetch_try_take, hb, if_true]
    split_ifs <;> simp [SectionKindSet.insert, SectionKindSet.contains]
  | mentions =>
    simp only [AccountState.poll_job, fetch_try_take, hb, if_true]
    split_ifs <;> simp [SectionKindSet.insert, SectionKindSet.contains]
  | notifications =>
    simp only [AccountState.poll_job, fetch_try_take, hb, if_true]
    split_ifs <;> simp [SectionKindSet.insert, SectionKindSet.contains]

/-- C4 witness: from an empty snapshot to one with a fresh unread review
request, the Review Requests bucket is highlighted after the new snapshot
is applied. -/
theorem C4_bumped_bucket_highlighted_witness :
    (sC4.poll_job).highlights.contains SectionKind.reviewRequests = true :=
  C4_bumped_bucket_highlighted sC4 snap1W snap2W SectionKind.reviewRequests rfl rfl (by decide)

/-- C1 counterexample: an account with no snapshot runs start_refresh, the
worker delivers a successful fetch whose only item is an unread
review_requested notification, and poll_job applies it — yet the Review
Requests bucket is NOT put into the highlight set (highlights are only
updated when a previous snapshot exists), while last_error is indeed none. -/
theorem C1_first_fetch_highlight_counterexample :
    ((((AccountState.new profW).start_refresh).deliver_fetch
        (Except.ok snap2W)).poll_job).highlights.contains SectionKind.reviewRequests = false
    ∧ ((((AccountState.new profW).start_refresh).deliver_fetch
        (Except.ok snap2W)).poll_job).last_error = none := by
  constructor <;> rfl

/-- C1 amended: applying a successful first fetch (no previous snapshot)
clears last_error and installs the snapshot, but leaves the highlight set
exactly as it was — no bucket is highlighted, because highlight comparison
needs a previous snapshot. -/
theorem C1_first_fetch_success_no_highlight (s : AccountState) (snap : InboxSnapshot)
    (h0 : s.inbox = none)
    (h1 : s.pending_job = some (JobSlot.done (Except.ok snap))) :
    (s.poll_job).last_error = none
    ∧ (s.poll_job).inbox = some snap
    ∧ (s.poll_job).highlights = s.highlights
    ∧ (s.poll_job).pending_job = none := by
  obtain ⟨prof, inbox0, lerr, pj, pa, ex, sq, infl, hl⟩ := s
  have h0b : inbox0 = none := h0
  have h1b : pj = some (JobSlot.done (Except.ok snap)) := h1
  subst h0b h1b
  exact ⟨rfl, rfl, rfl, rfl⟩

/-- C1 amended witness: the concrete no-snapshot scenario through
start_refresh, worker delivery and poll_job. -/
theorem C1_first_fetch_success_no_highlight_witness :
    (((((AccountState.new profW).start_refresh).deliver_fetch
        (Except.ok snap2W)).poll_job).last_error = none)
    ∧ (((((AccountState.new profW).start_refresh).deliver_fetch
        (Except.ok snap2W)).poll_job).inbox = some snap2W)
    ∧ (((((AccountState.new profW).start_refresh).deliver_fetch
        (Except.ok snap2W)).poll_job).highlights
        = (((AccountState.new profW).start_refresh).deliver_fetch
            (Except.ok snap2W)).highlights)
    ∧ (((((AccountState.new profW).start_refresh).deliver_fetch
        (Except.ok snap2W)).poll_job).pending_job = none) :=
  C1_first_fetch_success_no_highlight
    ((((AccountState.new profW).start_refresh).deliver_fetch (Except.ok snap2W)))
    snap2W rfl rfl

/-- C2 counterexample: a successful mark-read action processed by
poll_action_jobs at time 10 for an item whose updated_at is 5 sets the
item's last_read_at to the current time 10, not to its updated_at. -/
theorem C2_mark_read_updated_at_counterexample :
    ((sC2.poll_action_jobs 10).find_notification "t1").map
        (fun item => item.last_read_at) = some (some 10)
    ∧ itemC2.updated_at = 5
    ∧ ¬ (((sC2.poll_action_jobs 10).find_notification "t1").map
        (fun item => item.last_read_at) = some (some itemC2.updated_at)) := by
  refine ⟨rfl, rfl, ?_⟩
  decide

/-- C2 amended: for a successful action observed by poll_action_jobs
(mark-read and mark-done alike) whose target is still present, the item's
unread becomes false and its last_read_at becomes the CURRENT time `now`. -/
theorem C2_action_success_sets_read_now (s : AccountState) (now : Int)
    (job : NotificationActionJob) (tid : String) (item : NotificationItem)
    (hjobs : s.pending_actions = [job])
    (hslot : job.slot = JobSlot.done (Except.ok tid))
    (hfind : s.find_notification tid = some item) :
    (s.poll_action_jobs now).find_notification tid
      = some { item with unread := false, last_read_at := some now } := by
  obtain ⟨prof, inbox0, lerr, pj, pa, ex, sq, infl, hl⟩ := s
  obtain ⟨jkind, jtid, jslot⟩ := job
  have hpa : pa = [⟨jkind, jtid, jslot⟩] := hjobs
  have hsl : jslot = JobSlot.done (Except.ok tid) := hslot
  subst hpa hsl
  cases inbox0 with
  | none => simp [AccountState.find_notification] at hfind
  | some inbox =>
    simp only [AccountState.find_notification, Option.some_bind] at hfind
    simp only [AccountState.poll_action_jobs, List.filterMap, action_try_take,
      List.filter, List.foldl, AccountState.handle_action_success,
      AccountState.find_notification, Option.some_bind]
    rw [find?_editFirst (fun item : NotificationItem => item.thread_id == tid)
      (fun item : NotificationItem => { item with unread := false, last_read_at := some now })
      (fun x => rfl), hfind]
    rfl

/-- C2 amended witness: the concrete mark-read success at time 10. -/
theorem C2_action_success_sets_read_now_witness :
    (sC2.poll_action_jobs 10).find_notification "t1"
      = some { itemC2 with unread := false, last_read_at := some 10 } :=
  C2_action_success_sets_read_now sC2 10 jobC2 "t1" itemC2 rfl rfl rfl

/-- C3 counterexample: an action worker that terminated without sending a
result is observed by poll_action_jobs; last_error is set to the
synthesized message, but the target thread id "t9" is NOT removed from
inflight_thread_ids, and a subsequent request_mark_read for "t9" is still
suppressed (no job appended). -/
theorem C3_disconnected_worker_counterexample :
    (sC3.poll_action_jobs 0).last_error = some "Notification action worker disconnected"
    ∧ (sC3.poll_action_jobs 0).inflight_done = ["t9"]
    ∧ ((sC3.poll_action_jobs 0).request_mark_read "t9").pending_actions.length
        = (sC3.poll_action_jobs 0).pending_actions.length := by
  refine ⟨rfl, rfl, rfl⟩

/-- C3 amended: for a failed action job whose delivered error carries its
thread id, last_error is set to the message and the id is removed from the
in-flight set, so a subsequent request_mark_read for it spawns a job; a
worker that dies without sending carries no id and removes nothing. -/
theorem C3_failed_action_with_id_retryable (s : AccountState) (now : Int)
    (job : NotificationActionJob) (tid msg : String)
    (hjobs : s.pending_actions = [job])
    (hslot : job.slot = JobSlot.done (Except.error (some tid, msg))) :
    (s.poll_action_jobs now).last_error = some msg
    ∧ (s.poll_action_jobs now).inflight_done = setRemove s.inflight_done tid
    ∧ (s.poll_action_jobs now).inflight_done.contains tid = false
    ∧ ((s.poll_action_jobs now).request_mark_read tid).pending_actions.length
        = (s.poll_action_jobs now).pending_actions.length + 1 := by
  obtain ⟨prof, inbox0, lerr, pj, pa, ex, sq, infl, hl⟩ := s
  obtain ⟨jkind, jtid, jslot⟩ := job
  have hpa : pa = [⟨jkind, jtid, jslot⟩] := hjobs
  have hsl : jslot = JobSlot.done (Except.error (some tid, msg)) := hslot
  subst hpa hsl
  have hc : ((setRemove infl tid).contains tid) = false := setRemove_contains_eq_false _ _
  have hm : tid ∉ setRemove infl tid := by simpa using hc
  refine ⟨rfl, rfl, setRemove_contains_eq_false _ _, ?_⟩
  simp [AccountState.poll_action_jobs, action_try_take, List.filterMap, List.filter,
    List.foldl, AccountState.request_mark_read, hm]

/-- C3 amended witness: a delivered HTTP failure for thread "t2" records
the message, removes "t2" from the in-flight set, and a retry appends a
fresh job. -/
theorem C3_failed_action_with_id_retryable_witness :
    (sC3b.poll_action_jobs 0).last_error = some "HTTP 502"
    ∧ (sC3b.poll_action_jobs 0).inflight_done = setRemove sC3b.inflight_done "t2"
    ∧ (sC3b.poll_action_jobs 0).inflight_done.contains "t2" = false
    ∧ ((sC3b.poll_action_jobs 0).request_mark_read "t2").pending_actions.length
        = (sC3b.poll_action_jobs 0).pending_actions.length + 1 :=
  C3_failed_action_with_id_retryable sC3b 0 jobC3b "t2" "HTTP 502" rfl rfl
